import Mathlib

/-!
Shallow embedding of the `dandesdev/portfolio` front-end sources:

* `src/src/components/WaveBackground.tsx` — two variants of a wave-background
  component separated by a document separator in the file; each contains
  `getAmplitudeAtX`, `generateWavePath` and an `animate` frame callback.
* `src/src/hooks/useScrollBlur.ts` — a scroll callback applying a blur/glow
  style to a tracked element.
* `src/src/components/NavMenu.tsx` — a language toggle, the `Project` record
  type, and the per-locale project-list selection.

JavaScript numbers are modelled as exact rationals (`ℚ`); the transcendental
functions `Math.sin`, `Math.exp` and the constant `Math.PI` have no rational
counterpart, so they are abstracted into a `JSMath` record that every wave
definition takes as a parameter.  String interpolation of numbers is modelled
with `toString` on `ℚ`.
-/

/-- Abstraction of the JavaScript `Math` object: the transcendental functions
and the constant π used by the wave code, over exact rationals. -/
structure JSMath where
  sin : ℚ → ℚ
  exp : ℚ → ℚ
  pi : ℚ

/-- The numeric props of `WaveBackground` (both variants share these names,
with the same defaults). -/
structure WaveConfig where
  maxAmplitude : ℚ
  baseAmplitude : ℚ
  waveSpeed : ℚ
  waveFrequency : ℚ
  mouseInfluenceRadius : ℚ
  waveOffset : ℚ

/-- The default prop values of `WaveBackground`. -/
def defaultWaveConfig : WaveConfig :=
  { maxAmplitude := 30
    baseAmplitude := 8
    waveSpeed := 0.001
    waveFrequency := 2
    mouseInfluenceRadius := 300
    waveOffset := 50 }

namespace WaveV1

/-- Embedding of `getAmplitudeAtX` of the first `WaveBackground` variant
(`WaveBackground.tsx` lines 72–90).  `smoothMouseX` is the current value of
`smoothMouseXRef.current` and `mouseInfluence` that of
`mouseInfluenceRef.current`. -/
def getAmplitudeAtX (M : JSMath) (cfg : WaveConfig)
    (smoothMouseX mouseInfluence : ℚ) (x : ℚ) : ℚ :=
  if mouseInfluence ≤ 0.01 then
    cfg.baseAmplitude
  else
    let distance := |x - smoothMouseX|
    let normalizedDistance := min (distance / cfg.mouseInfluenceRadius) 1
    let influence := M.exp (-normalizedDistance * normalizedDistance * 3)
    let targetAmplitude :=
      cfg.baseAmplitude + (cfg.maxAmplitude - cfg.baseAmplitude) * influence
    cfg.baseAmplitude + (targetAmplitude - cfg.baseAmplitude) * mouseInfluence

/-- The x-coordinate of sample `i` in `generateWavePath`:
`x = i * segmentWidth` with `segmentWidth = width / 100`. -/
def wavePointX (width : ℚ) (i : ℕ) : ℚ :=
  (i : ℚ) * (width / 100)

/-- The y-coordinate of sample `i` in `generateWavePath`
(`WaveBackground.tsx` lines 103–115). -/
def wavePointY (M : JSMath) (cfg : WaveConfig)
    (smoothMouseX mouseInfluence : ℚ) (time width height : ℚ) (i : ℕ) : ℚ :=
  let x := wavePointX width i
  let amplitude := getAmplitudeAtX M cfg smoothMouseX mouseInfluence x
  let basePhase := x / width * M.pi * 2 * cfg.waveFrequency
  let timeOffset := time * cfg.waveSpeed
  let primaryWave := M.sin (basePhase + timeOffset)
  let secondaryWave := M.sin (basePhase * 1.5 + timeOffset * 0.7) * 0.3
  height - cfg.waveOffset - amplitude * (1 + primaryWave + secondaryWave) * 0.5

/-- Embedding of `generateWavePath` of the first `WaveBackground` variant
(`WaveBackground.tsx` lines 93–126): starts at the bottom-left corner,
appends one `L x y` command per sample `i = 0 .. 100`, and closes the path
at the bottom-right corner. -/
def generateWavePath (M : JSMath) (cfg : WaveConfig)
    (smoothMouseX mouseInfluence : ℚ) (time width height : ℚ) : String :=
  let segments := 100
  let path := "M 0 " ++ toString (height + 10)
  let path := (List.range (segments + 1)).foldl
    (fun path i =>
      path ++ " L " ++ toString (wavePointX width i) ++ " " ++
        toString (wavePointY M cfg smoothMouseX mouseInfluence time width height i))
    path
  path ++ " L " ++ toString width ++ " " ++ toString (height + 10) ++ " Z"

end WaveV1

namespace WaveV2

/-- Embedding of `getAmplitudeAtX` of the second `WaveBackground` variant
(`WaveBackground.tsx` lines 318–336). -/
def getAmplitudeAtX (M : JSMath) (cfg : WaveConfig)
    (smoothMouseX mouseInfluence : ℚ) (x : ℚ) : ℚ :=
  if mouseInfluence ≤ 0.01 then
    cfg.baseAmplitude
  else
    let distance := |x - smoothMouseX|
    let normalizedDistance := min (distance / cfg.mouseInfluenceRadius) 1
    let influence := M.exp (-normalizedDistance * normalizedDistance * 3)
    let targetAmplitude :=
      cfg.baseAmplitude + (cfg.maxAmplitude - cfg.baseAmplitude) * influence
    cfg.baseAmplitude + (targetAmplitude - cfg.baseAmplitude) * mouseInfluence

/-- The x-coordinate of sample `i` in the second variant's
`generateWavePath`. -/
def wavePointX (width : ℚ) (i : ℕ) : ℚ :=
  (i : ℚ) * (width / 100)

/-- The y-coordinate of sample `i` in the second variant's `generateWavePath`
(`WaveBackground.tsx` lines 349–361). -/
def wavePointY (M : JSMath) (cfg : WaveConfig)
    (smoothMouseX mouseInfluence : ℚ) (time width height : ℚ) (i : ℕ) : ℚ :=
  let x := wavePointX width i
  let amplitude := getAmplitudeAtX M cfg smoothMouseX mouseInfluence x
  let basePhase := x / width * M.pi * 2 * cfg.waveFrequency
  let timeOffset := time * cfg.waveSpeed
  let primaryWave := M.sin (basePhase + timeOffset)
  let secondaryWave := M.sin (basePhase * 1.5 + timeOffset * 0.7) * 0.3
  height - cfg.waveOffset - amplitude * (1 + primaryWave + secondaryWave) * 0.5

/-- Embedding of `generateWavePath` of the second `WaveBackground` variant
(`WaveBackground.tsx` lines 339–372). -/
def generateWavePath (M : JSMath) (cfg : WaveConfig)
    (smoothMouseX mouseInfluence : ℚ) (time width height : ℚ) : String :=
  let segments := 100
  let path := "M 0 " ++ toString (height + 10)
  let path := (List.range (segments + 1)).foldl
    (fun path i =>
      path ++ " L " ++ toString (wavePointX width i) ++ " " ++
        toString (wavePointY M cfg smoothMouseX mouseInfluence time width height i))
    path
  path ++ " L " ++ toString width ++ " " ++ toString (height + 10) ++ " Z"

end WaveV2

/-- One frame of the `smoothGradientXRef` update performed by `animate` in the
first `WaveBackground` variant (`WaveBackground.tsx` lines 135–154):
with the mouse present, the gradient target is the mouse position mapped into
the configured range; with the mouse absent, the target is the range centre.
Only the gradient state is carried; `g` is `smoothGradientXRef.current`. -/
def animateGradientStep (width gradientRangeStart gradientRangeEnd gradientLerpSpeed : ℚ)
    (targetMouseX : Option ℚ) (g : ℚ) : ℚ :=
  match targetMouseX with
  | some mx =>
    let rangeWidth := width * (gradientRangeEnd - gradientRangeStart)
    let startOffset := width * gradientRangeStart
    let gradientTargetX := mx / width * rangeWidth + startOffset
    g + (gradientTargetX - g) * gradientLerpSpeed
  | none =>
    let rangeCenter :=
      width * (gradientRangeStart + (gradientRangeEnd - gradientRangeStart) / 2)
    g + (rangeCenter - g) * gradientLerpSpeed

/-- The initial value `updateDimensions` gives `smoothGradientXRef`
(`WaveBackground.tsx` lines 189–196): the centre of the gradient range. -/
def initialGradientX (width gradientRangeStart gradientRangeEnd : ℚ) : ℚ :=
  width * (gradientRangeStart + (gradientRangeEnd - gradientRangeStart) / 2)

/-- The DOM element tracked by `useScrollBlur`: its bounding-rect top and the
two style properties the hook writes. -/
structure ScrollElement where
  rectTop : ℚ
  filter : String
  textShadow : String
deriving DecidableEq

/-- The body of the `useLenis` callback registered by `useScrollBlur`
(`useScrollBlur.ts` lines 5–34): if the ref is `null` it returns at once
without touching any style; otherwise it recomputes both style strings from
the element's `rect.top` and the viewport height alone. -/
def useScrollBlurCallback (elem : Option ScrollElement) (viewportHeight : ℚ) :
    Option ScrollElement :=
  match elem with
  | none => none
  | some el =>
    let startFade := viewportHeight
    let endFade := viewportHeight * 0.8
    let rawProgress := (el.rectTop - endFade) / (startFade - endFade)
    let progress := max 0 (min 1 rawProgress)
    let maxBlur : ℚ := 6
    let blurAmount := maxBlur * progress
    if progress > 0 then
      let shadowBlur := blurAmount * 3
      some { el with
        filter := "blur(" ++ toString blurAmount ++ "px)"
        textShadow := "0 0 " ++ toString shadowBlur ++
          "px rgb(var(--primary) / " ++ toString (0.5 * progress) ++ ")" }
    else
      some { el with filter := "none", textShadow := "none" }

/-- The `Project` record of `NavMenu.tsx` (lines 65–70): a title, a
description, a list of technology tags, and a link-label → URL mapping
(`Record<string, string>`, modelled as an association list). -/
structure Project where
  title : String
  description : String
  techs : List String
  links : List (String × String)
deriving DecidableEq

/-- Projection of a `Project` onto its exact field tuple. -/
def projectToFields (p : Project) : String × String × List String × List (String × String) :=
  (p.title, p.description, p.techs, p.links)

/-- Rebuild a `Project` from its field tuple. -/
def fieldsToProject (f : String × String × List String × List (String × String)) : Project :=
  { title := f.1, description := f.2.1, techs := f.2.2.1, links := f.2.2.2 }

/-- The per-locale project-list selection of `NavMenu.tsx` line 74:
`lang === "en" ? projectsEn : projectsBr`. -/
def selectProjects (lang : String) (projectsEn projectsBr : List Project) : List Project :=
  if lang = "en" then projectsEn else projectsBr

/-- Embedding of `toggleLang` of `NavMenu.tsx` lines 16–18:
`setLang(lang === "br" ? "en" : "br")`; the value passed to `setLang`. -/
def toggleLang (lang : String) : String :=
  if lang = "br" then "en" else "br"

/-- A concrete `JSMath` instance used by witnesses: `sin` constantly `0`,
`exp` constantly `1/2` (which is nonnegative everywhere and at most `1` on
nonpositive arguments, as the real exponential is), `pi` a rational stand-in. -/
def sampleMath : JSMath :=
  { sin := fun _ => 0, exp := fun _ => 1 / 2, pi := 3 }

/-! ## Helper lemmas -/

/-- Joining a concatenation of string lists concatenates the joins. -/
theorem join_append (l₁ l₂ : List String) :
    String.join (l₁ ++ l₂) = String.join l₁ ++ String.join l₂ := by
  apply String.ext
  simp

/-- A left fold that appends `f i` for `i = 0 .. n-1` onto `a` is `a` followed
by the join of the individual pieces. -/
theorem foldl_append_join (f : ℕ → String) (a : String) (n : ℕ) :
    (List.range n).foldl (fun s i => s ++ f i) a =
      a ++ String.join ((List.range n).map f) := by
  induction n with
  | zero => apply String.ext; simp
  | succ n ih =>
    rw [List.range_succ, List.foldl_append, List.map_append, join_append]
    simp only [List.foldl_cons, List.foldl_nil, ih]
    apply String.ext
    simp

/-- Linear interpolation `g + (t - g) * s` with `s ∈ [0, 1]` stays inside any
interval containing both endpoints. -/
theorem lerp_mem (L U g t s : ℚ) (hg1 : L ≤ g) (hg2 : g ≤ U) (ht1 : L ≤ t) (ht2 : t ≤ U)
    (hs0 : 0 ≤ s) (hs1 : s ≤ 1) : L ≤ g + (t - g) * s ∧ g + (t - g) * s ≤ U := by
  constructor
  · nlinarith [mul_nonneg (sub_nonneg.2 hg1) (sub_nonneg.2 hs1),
      mul_nonneg (sub_nonneg.2 ht1) hs0]
  · nlinarith [mul_nonneg (sub_nonneg.2 hg2) hs0,
      mul_nonneg (sub_nonneg.2 ht2) hs0, mul_nonneg (sub_nonneg.2 hg2) (sub_nonneg.2 hs1)]

/-- The sample x-coordinate of the first variant in the form used by the
spec: `i * width / 100`. -/
theorem wavePointX_eq (w : ℚ) (i : ℕ) : WaveV1.wavePointX w i = (i : ℚ) * w / 100 := by
  simp only [WaveV1.wavePointX]; ring

/-- The sample y-coordinate of the first variant rewritten into the spec's
form of the formula. -/
theorem wavePointY_eq (M : JSMath) (cfg : WaveConfig) (mx infl t w h : ℚ) (i : ℕ) :
    WaveV1.wavePointY M cfg mx infl t w h i =
      h - cfg.waveOffset -
        WaveV1.getAmplitudeAtX M cfg mx infl ((i : ℚ) * w / 100) *
          (1 + M.sin ((i : ℚ) * w / 100 / w * 2 * M.pi * cfg.waveFrequency +
              t * cfg.waveSpeed) +
            0.3 * M.sin (1.5 * ((i : ℚ) * w / 100 / w * 2 * M.pi * cfg.waveFrequency) +
              0.7 * t * cfg.waveSpeed)) * 0.5 := by
  simp only [WaveV1.wavePointY, WaveV1.wavePointX]
  have hx : (i : ℚ) * (w / 100) = (i : ℚ) * w / 100 := by ring
  rw [hx]
  have h1 : (i : ℚ) * w / 100 / w * M.pi * 2 * cfg.waveFrequency + t * cfg.waveSpeed =
      (i : ℚ) * w / 100 / w * 2 * M.pi * cfg.waveFrequency + t * cfg.waveSpeed := by ring
  have h2 : (i : ℚ) * w / 100 / w * M.pi * 2 * cfg.waveFrequency * 1.5 +
      t * cfg.waveSpeed * 0.7 =
      1.5 * ((i : ℚ) * w / 100 / w * 2 * M.pi * cfg.waveFrequency) +
        0.7 * t * cfg.waveSpeed := by ring
  rw [h1, h2]
  ring

/-! ## Claim theorems -/

/-- C1: for every sample `x`, when the mouse-influence blend factor exceeds
`0.01` the amplitude is the baseline blended with the Gaussian falloff
`baseAmplitude + ((baseAmplitude + (maxAmplitude - baseAmplitude) *
exp (-3 d²)) - baseAmplitude) * influence` where
`d = min (|x - smoothedMouseX| / mouseInfluenceRadius) 1`; when the blend
factor is at most `0.01` it is exactly `baseAmplitude`. -/
theorem getAmplitudeAtX_gaussian_blend (M : JSMath) (cfg : WaveConfig) (mx infl x : ℚ) :
    WaveV1.getAmplitudeAtX M cfg mx infl x =
      if 0.01 < infl then
        cfg.baseAmplitude +
          ((cfg.baseAmplitude + (cfg.maxAmplitude - cfg.baseAmplitude) *
              M.exp (-(3 * (min (|x - mx| / cfg.mouseInfluenceRadius) 1) ^ 2))) -
            cfg.baseAmplitude) * infl
      else cfg.baseAmplitude := by
  simp only [WaveV1.getAmplitudeAtX]
  by_cases h : infl ≤ 0.01
  · rw [if_pos h, if_neg (not_lt.mpr h)]
  · rw [if_neg h, if_pos (not_le.mp h)]
    have harg : -min (|x - mx| / cfg.mouseInfluenceRadius) 1 *
        min (|x - mx| / cfg.mouseInfluenceRadius) 1 * 3 =
        -(3 * (min (|x - mx| / cfg.mouseInfluenceRadius) 1) ^ 2) := by ring
    rw [harg]

/-- C2: the scroll-blur callback is a pure function of geometry — two
invocations on elements with the same `rect.top`, under the same viewport
height, produce identical filter strings and identical text-shadow strings,
whatever the elements' prior styles were. -/
theorem scrollBlur_pure_in_geometry (e₁ e₂ : ScrollElement) (vh : ℚ)
    (h : e₁.rectTop = e₂.rectTop) :
    Option.map ScrollElement.filter (useScrollBlurCallback (some e₁) vh) =
      Option.map ScrollElement.filter (useScrollBlurCallback (some e₂) vh) ∧
    Option.map ScrollElement.textShadow (useScrollBlurCallback (some e₁) vh) =
      Option.map ScrollElement.textShadow (useScrollBlurCallback (some e₂) vh) := by
  simp only [useScrollBlurCallback, h]
  exact ⟨trivial, trivial⟩

/-- Witness for C2: two elements sharing `rect.top = 950` but with different
prior styles receive the same styles at viewport height `1000`. -/
theorem scrollBlur_pure_in_geometry_witness :
    (ScrollElement.mk 950 "blur(3px)" "old" : ScrollElement).rectTop =
      (ScrollElement.mk 950 "none" "none" : ScrollElement).rectTop ∧
    (Option.map ScrollElement.filter
        (useScrollBlurCallback (some (ScrollElement.mk 950 "blur(3px)" "old")) 1000) =
      Option.map ScrollElement.filter
        (useScrollBlurCallback (some (ScrollElement.mk 950 "none" "none")) 1000) ∧
    Option.map ScrollElement.textShadow
        (useScrollBlurCallback (some (ScrollElement.mk 950 "blur(3px)" "old")) 1000) =
      Option.map ScrollElement.textShadow
        (useScrollBlurCallback (some (ScrollElement.mk 950 "none" "none")) 1000)) :=
  ⟨rfl, scrollBlur_pure_in_geometry
    (ScrollElement.mk 950 "blur(3px)" "old") (ScrollElement.mk 950 "none" "none") 1000 rfl⟩

/-- C3: for every time, width and height, `generateWavePath` starts at
`M 0 (h+10)`, contains exactly the 101 line-to points at `xᵢ = i·w/100`,
`i = 0 .. 100`, with the claimed y-formula, and ends with `L w (h+10) Z`. -/
theorem generateWavePath_structure (M : JSMath) (cfg : WaveConfig)
    (mx infl t w h : ℚ) (hw : 0 < w) :
    WaveV1.generateWavePath M cfg mx infl t w h =
      "M 0 " ++ toString (h + 10) ++
        String.join ((List.range 101).map (fun (i : ℕ) =>
          " L " ++ toString ((i : ℚ) * w / 100) ++ " " ++
            toString (h - cfg.waveOffset -
              WaveV1.getAmplitudeAtX M cfg mx infl ((i : ℚ) * w / 100) *
                (1 + M.sin ((i : ℚ) * w / 100 / w * 2 * M.pi * cfg.waveFrequency +
                    t * cfg.waveSpeed) +
                  0.3 * M.sin (1.5 * ((i : ℚ) * w / 100 / w * 2 * M.pi *
                      cfg.waveFrequency) +
                    0.7 * t * cfg.waveSpeed)) * 0.5))) ++
        " L " ++ toString w ++ " " ++ toString (h + 10) ++ " Z" := by
  simp only [WaveV1.generateWavePath]
  have hbody : (fun (path : String) (i : ℕ) =>
      path ++ " L " ++ toString (WaveV1.wavePointX w i) ++ " " ++
        toString (WaveV1.wavePointY M cfg mx infl t w h i)) =
      (fun (path : String) (i : ℕ) =>
        path ++ (" L " ++ toString (WaveV1.wavePointX w i) ++ " " ++
          toString (WaveV1.wavePointY M cfg mx infl t w h i))) := by
    funext p i
    apply String.ext
    simp
  rw [hbody, foldl_append_join]
  have hpt : (fun (i : ℕ) =>
      " L " ++ toString (WaveV1.wavePointX w i) ++ " " ++
        toString (WaveV1.wavePointY M cfg mx infl t w h i)) =
      (fun (i : ℕ) =>
        " L " ++ toString ((i : ℚ) * w / 100) ++ " " ++
          toString (h - cfg.waveOffset -
            WaveV1.getAmplitudeAtX M cfg mx infl ((i : ℚ) * w / 100) *
              (1 + M.sin ((i : ℚ) * w / 100 / w * 2 * M.pi * cfg.waveFrequency +
                  t * cfg.waveSpeed) +
                0.3 * M.sin (1.5 * ((i : ℚ) * w / 100 / w * 2 * M.pi *
                    cfg.waveFrequency) +
                  0.7 * t * cfg.waveSpeed)) * 0.5)) := by
    funext i
    rw [wavePointX_eq, wavePointY_eq]
  rw [hpt]

/-- Witness for C3: the path-structure theorem applied at width `100`,
height `50`, time `0`, with the sample math instance. -/
theorem generateWavePath_structure_witness :
    (0 : ℚ) < 100 ∧
    WaveV1.generateWavePath sampleMath defaultWaveConfig 0 0 0 100 50 =
      "M 0 " ++ toString ((50 : ℚ) + 10) ++
        String.join ((List.range 101).map (fun (i : ℕ) =>
          " L " ++ toString ((i : ℚ) * 100 / 100) ++ " " ++
            toString ((50 : ℚ) - defaultWaveConfig.waveOffset -
              WaveV1.getAmplitudeAtX sampleMath defaultWaveConfig 0 0 ((i : ℚ) * 100 / 100) *
                (1 + sampleMath.sin ((i : ℚ) * 100 / 100 / 100 * 2 * sampleMath.pi *
                    defaultWaveConfig.waveFrequency + 0 * defaultWaveConfig.waveSpeed) +
                  0.3 * sampleMath.sin (1.5 * ((i : ℚ) * 100 / 100 / 100 * 2 * sampleMath.pi *
                      defaultWaveConfig.waveFrequency) +
                    0.7 * 0 * defaultWaveConfig.waveSpeed)) * 0.5))) ++
        " L " ++ toString (100 : ℚ) ++ " " ++ toString ((50 : ℚ) + 10) ++ " Z" :=
  ⟨by norm_num,
    generateWavePath_structure sampleMath defaultWaveConfig 0 0 0 100 50 (by norm_num)⟩

/-- C4: the `Project` record consists of exactly a title, a description, a
list of technology tags and a link-label → URL mapping (the record and its
field tuple are mutually inverse images), and the per-locale list selection
returns one of the two lists verbatim, with no transformation. -/
theorem project_record_shape_and_verbatim_lists :
    (∀ p : Project, fieldsToProject (projectToFields p) = p) ∧
    (∀ f : String × String × List String × List (String × String),
      projectToFields (fieldsToProject f) = f) ∧
    (∀ (lang : String) (en br : List Project),
      selectProjects lang en br = en ∨ selectProjects lang en br = br) := by
  refine ⟨fun p => rfl, fun f => rfl, fun lang en br => ?_⟩
  by_cases h : lang = "en" <;> simp [selectProjects, h]

/-- C5: when the tracked DOM reference is `null`, the scroll callback returns
at once: the element state (hence every style property) is unchanged and the
callback is total — no exception path exists in the model. -/
theorem useScrollBlur_null_ref_no_mutation :
    ∀ vh : ℚ, useScrollBlurCallback none vh = none :=
  fun _ => rfl

/-- C6: the language toggle maps `"br"` to `"en"` and every other language
value to `"br"`, and is an involution on the two-language set. -/
theorem toggleLang_involution :
    (∀ lang : String, toggleLang lang = if lang = "br" then "en" else "br") ∧
    toggleLang (toggleLang "br") = "br" ∧ toggleLang (toggleLang "en") = "en" :=
  ⟨fun _ => rfl, by decide, by decide⟩

/-- C7: the rendered project list is selected purely by the current language —
`"en"` picks the English list, anything else the Portuguese list — and the
selected list is one of the two inputs unchanged. -/
theorem selectProjects_by_language :
    ∀ (lang : String) (projectsEn projectsBr : List Project),
      selectProjects lang projectsEn projectsBr =
        (if lang = "en" then projectsEn else projectsBr) ∧
      (selectProjects lang projectsEn projectsBr = projectsEn ∨
        selectProjects lang projectsEn projectsBr = projectsBr) := by
  intro lang en br
  refine ⟨rfl, ?_⟩
  by_cases h : lang = "en" <;> simp [selectProjects, h]

/-- C8: if `baseAmplitude ≤ maxAmplitude`, the blend factor lies in `[0, 1]`,
and the abstract exponential behaves like the real one (nonnegative
everywhere, at most `1` on nonpositive arguments), then the amplitude lies in
`[baseAmplitude, maxAmplitude]`. -/
theorem getAmplitudeAtX_range (M : JSMath) (cfg : WaveConfig) (mx infl x : ℚ)
    (hba : cfg.baseAmplitude ≤ cfg.maxAmplitude) (h0 : 0 ≤ infl) (h1 : infl ≤ 1)
    (hexp0 : ∀ z : ℚ, 0 ≤ M.exp z) (hexp1 : ∀ z : ℚ, z ≤ 0 → M.exp z ≤ 1) :
    cfg.baseAmplitude ≤ WaveV1.getAmplitudeAtX M cfg mx infl x ∧
      WaveV1.getAmplitudeAtX M cfg mx infl x ≤ cfg.maxAmplitude := by
  simp only [WaveV1.getAmplitudeAtX]
  split
  · exact ⟨le_refl _, hba⟩
  · set d := min (|x - mx| / cfg.mouseInfluenceRadius) 1 with hd
    have he0 := hexp0 (-d * d * 3)
    have he1 := hexp1 (-d * d * 3) (by nlinarith [mul_self_nonneg d])
    constructor
    · nlinarith [mul_nonneg (mul_nonneg (sub_nonneg.2 hba) he0) h0]
    · nlinarith [mul_nonneg (sub_nonneg.2 hba) he0, mul_nonneg (sub_nonneg.2 hba) h0,
        mul_nonneg (mul_nonneg (sub_nonneg.2 hba) he0) h0,
        mul_nonneg (sub_nonneg.2 hba) (mul_nonneg he0 h0)]

/-- Witness for C8: with the default configuration, blend factor `1/2` and
the sample math instance, the amplitude at `x = 100` lies in `[8, 30]`. -/
theorem getAmplitudeAtX_range_witness :
    defaultWaveConfig.baseAmplitude ≤
      WaveV1.getAmplitudeAtX sampleMath defaultWaveConfig 0 (1/2) 100 ∧
    WaveV1.getAmplitudeAtX sampleMath defaultWaveConfig 0 (1/2) 100 ≤
      defaultWaveConfig.maxAmplitude :=
  getAmplitudeAtX_range sampleMath defaultWaveConfig 0 (1/2) 100
    (by norm_num [defaultWaveConfig]) (by norm_num) (by norm_num)
    (fun z => by norm_num [sampleMath]) (fun z hz => by norm_num [sampleMath])

/-- C9: if `gradientRangeStart ≤ gradientRangeEnd`, the lerp speed lies in
`[0, 1]`, any present raw mouse x lies in `[0, width]`, and the smoothed
gradient x lies in `[gradientRangeStart·width, gradientRangeEnd·width]`, then
after one `animate` update — mouse-present or drift-to-centre branch — it
still lies in that interval. -/
theorem animateGradientStep_range (width rs re ls : ℚ) (tm : Option ℚ) (g : ℚ)
    (hse : rs ≤ re) (hl0 : 0 ≤ ls) (hl1 : ls ≤ 1)
    (hm : ∀ mx : ℚ, tm = some mx → 0 ≤ mx ∧ mx ≤ width)
    (hg1 : rs * width ≤ g) (hg2 : g ≤ re * width) :
    rs * width ≤ animateGradientStep width rs re ls tm g ∧
      animateGradientStep width rs re ls tm g ≤ re * width := by
  cases tm with
  | none =>
    simp only [animateGradientStep]
    have hLU : rs * width ≤ re * width := le_trans hg1 hg2
    refine lerp_mem _ _ _ _ _ hg1 hg2 ?_ ?_ hl0 hl1
    · nlinarith
    · nlinarith
  | some mx =>
    obtain ⟨hm0, hmw⟩ := hm mx rfl
    simp only [animateGradientStep]
    rcases eq_or_ne width 0 with hzw | hzw
    · subst hzw
      have hmx : mx = 0 := le_antisymm hmw hm0
      subst hmx
      have hg0 : g = 0 := le_antisymm (by simpa using hg2) (by simpa using hg1)
      subst hg0
      simp
    · have ht : mx / width * (width * (re - rs)) + width * rs =
          mx * (re - rs) + width * rs := by
        field_simp
        ring
      rw [ht]
      refine lerp_mem _ _ _ _ _ hg1 hg2 ?_ ?_ hl0 hl1
      · nlinarith [mul_nonneg hm0 (sub_nonneg.2 hse)]
      · nlinarith [mul_nonneg (sub_nonneg.2 hse) (sub_nonneg.2 hmw)]

/-- Witness for C9: with the default range `[1/3, 5/6]` over width `1200`,
lerp speed `1/2`, mouse at `600`, the gradient position `500` stays in
`[400, 1000]`. -/
theorem animateGradientStep_range_witness :
    (1/3 : ℚ) * 1200 ≤ animateGradientStep 1200 (1/3) (5/6) (1/2) (some 600) 500 ∧
    animateGradientStep 1200 (1/3) (5/6) (1/2) (some 600) 500 ≤ (5/6 : ℚ) * 1200 :=
  animateGradientStep_range 1200 (1/3) (5/6) (1/2) (some 600) 500
    (by norm_num) (by norm_num) (by norm_num)
    (fun mx hmx => by
      simp only [Option.some.injEq] at hmx
      subst hmx
      norm_num)
    (by norm_num) (by norm_num)

/-- C10: the two `WaveBackground` variants in the source file compute
identical wave geometry — on the same configuration, smoothed mouse x,
influence factor, time, width and height, their `generateWavePath` functions
return the same path string. -/
theorem generateWavePath_variants_agree (M : JSMath) (cfg : WaveConfig)
    (mx infl t w h : ℚ) :
    WaveV1.generateWavePath M cfg mx infl t w h =
      WaveV2.generateWavePath M cfg mx infl t w h :=
  rfl
